import Mathlib

/-!
# Verification of the JobFit Finder front end

A shallow embedding, in Lean 4, of the client-side logic of the JobFit
Finder web application:

* `frontend/app/components/ResultsList.tsx` — score-badge tier
  classification, per-card rendering (rank badge, rationale and gaps
  sections), and the partition of a stored result set into top
  recommendations and other matches;
* `frontend/app/results/page.tsx` — loading the persisted result set from
  session storage and the empty-state path;
* `frontend/app/components/UploadForm.tsx` — form state, the input-mode
  switch, the file-type gate, `validateForm`, and request building of the submit flow and response handling.

Browser and JavaScript facilities that the code calls into (the WHATWG
`URL` parser, `JSON.parse`, `FileReader`/base64 encoding) are modelled
abstractly: parsing outcomes are passed in as data or as a function
parameter, and dynamic JavaScript values are modelled by an explicit
`JsValue` type with the property-access, truthiness and length semantics
the code relies on.
-/

namespace JobFit

/-! ## Data model (ResultsList.tsx / results/page.tsx interfaces) -/

/-- The `JobPosting` interface from `ResultsList.tsx`. -/
structure JobPosting where
  id : String
  title : String
  location : String
  description : String
  apply_url : String
  source : String
deriving DecidableEq, Repr

/-- The `MatchResult` interface from `ResultsList.tsx`. -/
structure MatchResult where
  job : JobPosting
  match_score : Int
  why_matches : List String
  gaps : List String
deriving DecidableEq, Repr

/-! ## ScoreBadge (ResultsList.tsx lines 26–41)

The component starts from a default `colorClass` and overwrites it by the
`if`/`else if` chain; the resulting class string is the tier. -/

def greenClass : String := "bg-green-100 text-green-800"
def blueClass : String := "bg-blue-100 text-blue-800"
def yellowClass : String := "bg-yellow-100 text-yellow-800"
def redClass : String := "bg-red-100 text-red-800"

/-- The `colorClass` computed by `ScoreBadge` for a given `score`. -/
def scoreColorClass (score : Int) : String :=
  if score ≥ 80 then greenClass
  else if score ≥ 60 then blueClass
  else if score < 40 then redClass
  else yellowClass

/-! ## JobCard (ResultsList.tsx lines 43–116) -/

/-- The sentinel gap string suppressed from display. -/
def gapsSentinel : String := "No significant gaps identified"

/-- The guard on the gaps section of a `JobCard`:
`result.gaps.length > 0 && result.gaps[0] !== "No significant gaps identified"`. -/
def shouldRenderGaps : List String → Bool
  | [] => false
  | g :: _ => g ≠ gapsSentinel

/-- The `isTopThree` flag as computed inside `JobCard` from the `rank` prop. -/
def isTopThree (rank : Nat) : Bool := rank ≤ 3

/-- The visible content of one rendered `JobCard`. -/
structure CardView where
  /-- The rank badge, shown exactly when `isTopThree`. -/
  rankBadge : Option Nat
  /-- The color class of the score badge. -/
  scoreClass : String
  /-- The "Why This Matches" bullet list, rendered verbatim in order. -/
  whyItems : List String
  /-- The "Potential Gaps" section: `none` when omitted, otherwise the
  bullet list rendered verbatim in order. -/
  gapsSection : Option (List String)
deriving DecidableEq, Repr

/-- What `JobCard` renders for a result at a given rank. -/
def jobCardView (result : MatchResult) (rank : Nat) : CardView :=
  { rankBadge := if isTopThree rank then some rank else none
    scoreClass := scoreColorClass result.match_score
    whyItems := result.why_matches
    gapsSection := if shouldRenderGaps result.gaps then some result.gaps else none }

/-! ## ResultsList (ResultsList.tsx lines 118–160)

`results.slice(0, 3)` is rendered as the top-recommendations section with
`rank = index + 1`; `results.slice(3)` as the other-matches section with
`rank = index + 4`. -/

/-- A card as placed by `ResultsList`: the underlying result, the `rank`
prop passed to `JobCard`, and whether it sits in the top-recommendations
section. -/
structure RenderedCard where
  result : MatchResult
  rank : Nat
  topSection : Bool
deriving DecidableEq, Repr

/-- The ordered list of cards rendered by `ResultsList` for a non-empty
result list: top section from `slice(0, 3)`, other section from
`slice(3)`. -/
def renderedCards (results : List MatchResult) : List RenderedCard :=
  ((results.take 3).enum.map fun p => ⟨p.2, p.1 + 1, true⟩)
    ++ ((results.drop 3).enum.map fun p => ⟨p.2, p.1 + 4, false⟩)

/-! ## UploadForm state (UploadForm.tsx lines 11–38)

A browser `File` is abstracted to its name, its declared content type
(`file.type`, the only property the form logic inspects), and its content
(already viewed as the base64 string that `fileToBase64` would produce;
binary data and the `FileReader` round-trip are not modelled further). -/

structure BrowserFile where
  name : String
  type : String
  /-- The bytes of the file, abstracted to the base64 string `fileToBase64`
  resolves with. -/
  contentBase64 : String
deriving DecidableEq, Repr

/-- The `FormData` interface from `UploadForm.tsx` (`resumeFile: File | null` becomes an
`Option`). -/
structure FormData where
  resumeText : String
  resumeFile : Option BrowserFile
  desiredJobDescription : String
  companyJobsUrl : String
deriving DecidableEq, Repr

/-- The `FormErrors` interface from `UploadForm.tsx`: each optional field is `none` when
the key is unset. -/
structure FormErrors where
  resume : Option String
  desiredJobDescription : Option String
  companyJobsUrl : Option String
  submit : Option String
deriving DecidableEq, Repr

/-- The empty error map `{}`. -/
def noErrors : FormErrors := ⟨none, none, none, none⟩

inductive InputMode where
  | paste
  | upload
deriving DecidableEq, Repr

/-- The component state of `UploadForm`: `formData`, `errors`,
`isLoading` and `inputMode`. -/
structure FormState where
  formData : FormData
  errors : FormErrors
  isLoading : Bool
  inputMode : InputMode
deriving DecidableEq, Repr

/-- The initial `useState` values (UploadForm.tsx lines 29–38). -/
def initialState : FormState :=
  { formData := { resumeText := "", resumeFile := none,
                  desiredJobDescription := "", companyJobsUrl := "" }
    errors := noErrors
    isLoading := false
    inputMode := .paste }

/-! ## Event handlers (UploadForm.tsx lines 40–51 and 157–180) -/

/-- The accepted declared content types (UploadForm.tsx line 43). -/
def validTypes : List String :=
  ["application/pdf",
   "application/vnd.openxmlformats-officedocument.wordprocessingml.document"]

/-- Behaviour of `handleFileChange` for a change event that carries a file: reject a
disallowed content type with a `resume` error and no state change,
otherwise store the file, clear `resumeText` and clear the `resume`
error. -/
def handleFileChange (st : FormState) (file : BrowserFile) : FormState :=
  if validTypes.contains file.type then
    { st with
      formData := { st.formData with resumeFile := some file, resumeText := "" }
      errors := { st.errors with resume := none } }
  else
    { st with errors := { st.errors with resume := some "Please upload a PDF or DOCX file" } }

/-- The `onClick` of the "Paste Text" button: set the mode and clear
`resumeFile`. -/
def doSwitchPaste (st : FormState) : FormState :=
  { st with inputMode := .paste
            formData := { st.formData with resumeFile := none } }

/-- The `onClick` of the "Upload File" button: set the mode and clear
`resumeText`. -/
def doSwitchUpload (st : FormState) : FormState :=
  { st with inputMode := .upload
            formData := { st.formData with resumeText := "" } }

/-- The `onChange` of the resume textarea (rendered only in paste mode). -/
def doEditResumeText (st : FormState) (t : String) : FormState :=
  { st with formData := { st.formData with resumeText := t } }

/-- The `onChange` of the desired-job textarea. -/
def doEditDesiredJob (st : FormState) (t : String) : FormState :=
  { st with formData := { st.formData with desiredJobDescription := t } }

/-- The `onChange` of the company-URL input. -/
def doEditCompanyUrl (st : FormState) (t : String) : FormState :=
  { st with formData := { st.formData with companyJobsUrl := t } }

/-- The form states reachable from the initial state through the provided
handlers. The resume textarea exists only in paste mode and the file input
only in upload mode, so those events are guarded by the current mode. -/
inductive Reachable : FormState → Prop
  | init : Reachable initialState
  | switchPaste {s} : Reachable s → Reachable (doSwitchPaste s)
  | switchUpload {s} : Reachable s → Reachable (doSwitchUpload s)
  | editResumeText {s} (t : String) : Reachable s → s.inputMode = .paste →
      Reachable (doEditResumeText s t)
  | selectFile {s} (f : BrowserFile) : Reachable s → s.inputMode = .upload →
      Reachable (handleFileChange s f)
  | editDesiredJob {s} (t : String) : Reachable s → Reachable (doEditDesiredJob s t)
  | editCompanyUrl {s} (t : String) : Reachable s → Reachable (doEditCompanyUrl s t)

/-! ## validateForm (UploadForm.tsx lines 67–94)

`new URL(...)` is abstracted by a parameter
`parseURL : String → Option String` returning the
`hostname` of the parsed URL, with `none` when the constructor throws.
`hostname.includes(sub)` is substring containment. -/

/-- JavaScript `String.prototype.trim`: strip leading and trailing
whitespace (JS trims Unicode whitespace; approximated here by
`Char.isWhitespace`). -/
def jsTrim (s : String) : String :=
  String.mk (((s.toList.dropWhile Char.isWhitespace).reverse.dropWhile
    Char.isWhitespace).reverse)

/-- JavaScript `String.prototype.includes`: substring containment. -/
def strIncludes (s sub : String) : Bool := decide (sub.toList <:+: s.toList)

/-- The allow-list test on the parsed hostname (UploadForm.tsx line 83). -/
def hostnameSupported (host : String) : Bool :=
  strIncludes host "greenhouse.io" || strIncludes host "lever.co"
    || strIncludes host "myworkdayjobs.com"

/-- The fresh error map built by `validateForm`. Note the resume check tests
`!formData.resumeText` (emptiness, no trimming) while the
desired-job check trims first. -/
def validateForm (parseURL : String → Option String) (fd : FormData) : FormErrors :=
  { resume :=
      if fd.resumeText = "" ∧ fd.resumeFile = none then
        some "Please paste your resume or upload a file"
      else none
    desiredJobDescription :=
      if jsTrim fd.desiredJobDescription = "" then
        some "Please describe your desired job"
      else none
    companyJobsUrl :=
      if jsTrim fd.companyJobsUrl = "" then
        some "Please enter a company jobs URL"
      else
        match parseURL fd.companyJobsUrl with
        | none => some "Please enter a valid URL"
        | some host =>
            if hostnameSupported host then none
            else some "Currently only Greenhouse, Lever, and Workday URLs are supported"
    submit := none }

/-- The check `Object.keys(newErrors).length === 0`: no key was assigned. -/
def validatePasses (parseURL : String → Option String) (fd : FormData) : Bool :=
  validateForm parseURL fd = noErrors

/-! ## Request building (UploadForm.tsx lines 104–121) -/

/-- The mutually exclusive resume field of the request body. -/
inductive ResumePayload where
  | resume_file_base64 (data : String)
  | resume_text (t : String)
deriving DecidableEq, Repr

/-- The JSON request body assembled by `handleSubmit`. -/
structure RequestBody where
  desired_job_description : String
  company_jobs_url : String
  resume : ResumePayload
deriving DecidableEq, Repr

/-- Encoding via `fileToBase64`, abstracted into the file model. -/
def fileToBase64 (f : BrowserFile) : String := f.contentBase64

/-- The `requestBody` built by `handleSubmit`: the file branch wins when a
file is selected, else `resume_text` is sent as-is. -/
def buildRequestBody (fd : FormData) : RequestBody :=
  { desired_job_description := fd.desiredJobDescription
    company_jobs_url := fd.companyJobsUrl
    resume :=
      match fd.resumeFile with
      | some f => .resume_file_base64 (fileToBase64 f)
      | none => .resume_text fd.resumeText }

/-! ## Dynamic JavaScript values

The results page and the submit error path manipulate values of unknown
shape coming from `JSON.parse` / `response.json()`. `JsValue` models such
values; `undefined` is never produced by `JSON.parse` but arises from
property access on objects lacking the key. -/

inductive JsValue where
  | undefined
  | null
  | bool (b : Bool)
  | num (n : Int)
  | str (s : String)
  | arr (elems : List JsValue)
  | obj (fields : List (String × JsValue))

/-- JavaScript truthiness (`NaN` is not modelled; numbers are integral). -/
def jsTruthy : JsValue → Bool
  | .undefined => false
  | .null => false
  | .bool b => b
  | .num n => n ≠ 0
  | .str s => s ≠ ""
  | .arr _ => true
  | .obj _ => true

/-- Plain property access `v.k`: throws a `TypeError` on `null` and
`undefined`, yields the field (or `undefined`) on objects, and `undefined`
on other primitives (built-in properties other than `length` are not
modelled; `length` is `jsLengthProp`). -/
def jsGetField (v : JsValue) (k : String) : Except String JsValue :=
  match v with
  | .undefined => .error ("TypeError: Cannot read properties of undefined (reading " ++ k ++ ")")
  | .null => .error ("TypeError: Cannot read properties of null (reading " ++ k ++ ")")
  | .obj fields => .ok ((fields.lookup k).getD .undefined)
  | _ => .ok .undefined

/-- Optional-chaining access `v?.k`: `undefined` when `v` is `null` or
`undefined`, else plain access. -/
def jsOptField (v : JsValue) (k : String) : JsValue :=
  match v with
  | .obj fields => (fields.lookup k).getD .undefined
  | _ => .undefined

/-- The `length` property: array length, string length, the `length` field an object
itself carries, `undefined` otherwise. -/
def jsLengthProp : JsValue → JsValue
  | .arr elems => .num elems.length
  | .str s => .num s.length
  | .obj fields => (fields.lookup "length").getD .undefined
  | _ => .undefined

/-- The test `v.length === 0` (strict equality, so `undefined === 0` is false). -/
def lengthIsZero (v : JsValue) : Bool :=
  match jsLengthProp v with
  | .num n => n = 0
  | _ => false

/-- JavaScript `String(v)`, used for the message of an `Error`. Array
stringification joins the stringified elements with commas
(`null`/`undefined` elements, which stringify to the empty string inside
arrays, are approximated by their top-level forms). -/
def jsToString : JsValue → String
  | .undefined => "undefined"
  | .null => "null"
  | .bool b => if b then "true" else "false"
  | .num n => toString n
  | .str s => s
  | .arr elems => String.intercalate "," (elems.attach.map fun e => jsToString e.1)
  | .obj _ => "[object Object]"
decreasing_by
  have := List.sizeOf_lt_of_mem e.2
  simp only [JsValue.arr.sizeOf_spec]
  omega

/-! ## Results page loading (results/page.tsx lines 28–71)

`sessionStorage.getItem("jobResults")` yields `null` or a string; on a
string, `JSON.parse` either throws or yields a value. The state of the slot is
modelled at that granularity. -/

inductive StoredSlot where
  | absent
  | malformed
  | value (v : JsValue)

/-- The `parsedResults` the effect computes: the empty array when the slot
is absent or `JSON.parse` throws, otherwise whatever value was parsed —
no structural validation happens. -/
def loadParsedResults : StoredSlot → JsValue
  | .absent => .arr []
  | .malformed => .arr []
  | .value v => v

/-- What the results page renders once loading finishes. `emptyNotice` is
the "No Results Found" empty state; `rendered top other` is the
partition `slice(0,3)` / `slice(3)` of an array by `ResultsList` (per-card rendering of
decoded results is `jobCardView`/`renderedCards`); `thrown` is an
uncaught `TypeError` from calling `.slice` on a non-array. -/
inductive PageRender where
  | emptyNotice
  | rendered (top other : List JsValue)
  | thrown (msg : String)

/-- The results page after loading: the `results.length === 0` guard, then
`ResultsList`, whose `slice` calls require an array. -/
def resultsPageRender (slot : StoredSlot) : PageRender :=
  let results := loadParsedResults slot
  if lengthIsZero results then .emptyNotice
  else
    match results with
    | .arr elems => .rendered (elems.take 3) (elems.drop 3)
    | _ => .thrown "TypeError: results.slice is not a function"

/-! ## Submit response handling (UploadForm.tsx lines 96–141) -/

/-- The outcome of `await response.json()`: it rejects (with a
`SyntaxError` whose message is recorded) or resolves to a value. -/
inductive BodyParse where
  | unparseable (errMsg : String)
  | parsed (v : JsValue)

/-- A fetch response, as far as `handleSubmit` inspects it. -/
structure HttpResponse where
  ok : Bool
  body : BodyParse

/-- The generic fallback message (UploadForm.tsx line 125). -/
def fallbackMessage : String := "Failed to get recommendations"

/-- The message of the `Error` that reaches the `catch` block on a
non-`ok` response: a rejected `response.json()` propagates its own parse
error; otherwise `new Error(errorData.detail?.message || fallback)` is
thrown, except that `errorData.detail` itself throws when `errorData` is
`null`. -/
def nonOkError : BodyParse → String
  | .unparseable m => m
  | .parsed v =>
      match jsGetField v "detail" with
      | .error m => m
      | .ok detail =>
          let m := jsOptField detail "message"
          if jsTruthy m then jsToString m else fallbackMessage

/-- The `errors` map set by the `catch` block: `setErrors({ submit: ... })`
replaces the whole map. -/
def onlySubmitError (msg : String) : FormErrors := ⟨none, none, none, some msg⟩

/-- Where `handleSubmit` ends up after the response is processed. -/
inductive SubmitOutcome where
  | navigated (storedResults : JsValue)
  | stayed (st : FormState)

/-- Response processing in `handleSubmit` (after validation passed and the
request was sent): on success, `data.results` is stored and the router
navigates; on failure (or a throwing success path), the message of the caught
`Error` lands in `errors.submit`, `isLoading` is cleared by `finally`, and
`formData` is untouched. -/
def submitResponseStep (st : FormState) (resp : HttpResponse) : SubmitOutcome :=
  if resp.ok then
    match resp.body with
    | .unparseable m => .stayed { st with errors := onlySubmitError m, isLoading := false }
    | .parsed data =>
        match jsGetField data "results" with
        | .error m => .stayed { st with errors := onlySubmitError m, isLoading := false }
        | .ok results => .navigated results
  else
    .stayed { st with errors := onlySubmitError (nonOkError resp.body), isLoading := false }

/-! ## Theorems -/

/-- C4: the score-badge tier classification is total and non-overlapping
over integers 0–100: `score ≥ 80` maps to the top (green) tier,
`60 ≤ score < 80` to the second (blue) tier, `40 ≤ score < 60` to the
third (yellow) tier, and `score < 40` to the lowest (red) tier, each
boundary inclusive on the lower bound of its tier. -/
theorem scoreColorClass_tier_classification (score : Int)
    (h0 : 0 ≤ score) (h1 : score ≤ 100) :
    ((80 ≤ score) ↔ scoreColorClass score = greenClass)
    ∧ ((60 ≤ score ∧ score < 80) ↔ scoreColorClass score = blueClass)
    ∧ ((40 ≤ score ∧ score < 60) ↔ scoreColorClass score = yellowClass)
    ∧ ((score < 40) ↔ scoreColorClass score = redClass) := by
  unfold scoreColorClass
  split_ifs with hA hB hC <;>
    refine ⟨?_, ?_, ?_, ?_⟩ <;>
    simp [greenClass, blueClass, yellowClass, redClass] <;>
    omega

/-- Witness for `scoreColorClass_tier_classification` at `score = 80`. -/
theorem scoreColorClass_tier_classification_witness :
    (0 : Int) ≤ 80 ∧ (80 : Int) ≤ 100 ∧ scoreColorClass 80 = greenClass :=
  ⟨by decide, by decide,
    (scoreColorClass_tier_classification 80 (by decide) (by decide)).1.mp (by decide)⟩

/-- C5: `validateForm` attaches a `companyJobsUrl` error exactly when the
string trims to empty, is unparseable as a URL, or parses to a hostname
containing none of the three allow-listed substrings; a parseable URL
whose hostname contains one of them produces no `companyJobsUrl` error. -/
theorem validateForm_companyJobsUrl_error_iff
    (parseURL : String → Option String) (fd : FormData) :
    (validateForm parseURL fd).companyJobsUrl ≠ none ↔
      (jsTrim fd.companyJobsUrl = ""
        ∨ parseURL fd.companyJobsUrl = none
        ∨ ∃ host, parseURL fd.companyJobsUrl = some host ∧ hostnameSupported host = false) := by
  by_cases htrim : jsTrim fd.companyJobsUrl = ""
  · simp [validateForm, htrim]
  · cases hp : parseURL fd.companyJobsUrl with
    | none => simp [validateForm, htrim, hp]
    | some host =>
        by_cases hs : hostnameSupported host
        · simp [validateForm, htrim, hp, hs]
        · simp [validateForm, htrim, hp, hs]

/-- C7: a file-selection event with a disallowed declared content type
surfaces a resume field error and leaves `formData` (all four fields), the
input mode and the other error entries unchanged; the file is never
written into `resumeFile`. -/
theorem handleFileChange_disallowed_type (st : FormState) (f : BrowserFile)
    (h : f.type ∉ validTypes) :
    (handleFileChange st f).formData = st.formData
    ∧ (handleFileChange st f).errors.resume = some "Please upload a PDF or DOCX file"
    ∧ (handleFileChange st f).inputMode = st.inputMode
    ∧ (handleFileChange st f).errors.desiredJobDescription = st.errors.desiredJobDescription
    ∧ (handleFileChange st f).errors.companyJobsUrl = st.errors.companyJobsUrl
    ∧ (handleFileChange st f).errors.submit = st.errors.submit := by
  unfold handleFileChange
  simp [h]

/-- Witness for `handleFileChange_disallowed_type`: selecting a
`text/plain` file in the initial state. -/
theorem handleFileChange_disallowed_type_witness :
    (handleFileChange initialState ⟨"resume.txt", "text/plain", ""⟩).formData
        = initialState.formData
    ∧ (handleFileChange initialState ⟨"resume.txt", "text/plain", ""⟩).errors.resume
        = some "Please upload a PDF or DOCX file" :=
  ⟨(handleFileChange_disallowed_type initialState ⟨"resume.txt", "text/plain", ""⟩ (by decide)).1,
   (handleFileChange_disallowed_type initialState ⟨"resume.txt", "text/plain", ""⟩ (by decide)).2.1⟩

/-- C8: switching the input mode to upload clears `resumeText`, switching
to paste clears `resumeFile`, and both switches are idempotent. -/
theorem switchMode_clears_and_idempotent (st : FormState) :
    (doSwitchUpload st).formData.resumeText = ""
    ∧ (doSwitchPaste st).formData.resumeFile = none
    ∧ doSwitchUpload (doSwitchUpload st) = doSwitchUpload st
    ∧ doSwitchPaste (doSwitchPaste st) = doSwitchPaste st :=
  ⟨rfl, rfl, rfl, rfl⟩

/-- C10: a whitespace-only, non-empty `resumeText` with no file passes the
resume presence check (which tests emptiness without trimming), and the
request body then carries that whitespace string as `resume_text`; the
desired-job check, by contrast, trims, so the same string there errors. -/
theorem validateForm_whitespace_resumeText
    (parseURL : String → Option String) (fd : FormData)
    (hne : fd.resumeText ≠ "") (hws : jsTrim fd.resumeText = "")
    (hf : fd.resumeFile = none) :
    (validateForm parseURL fd).resume = none
    ∧ (buildRequestBody fd).resume = .resume_text fd.resumeText
    ∧ (validateForm parseURL
        { fd with desiredJobDescription := fd.resumeText }).desiredJobDescription
        = some "Please describe your desired job" := by
  refine ⟨?_, ?_, ?_⟩
  · simp [validateForm, hne]
  · simp [buildRequestBody, hf]
  · simp [validateForm, hws]

/-- Witness for `validateForm_whitespace_resumeText` at
`resumeText = " "`. -/
theorem validateForm_whitespace_resumeText_witness :
    (validateForm (fun _ => none)
        { resumeText := " ", resumeFile := none,
          desiredJobDescription := "data analyst", companyJobsUrl := "x" }).resume = none
    ∧ (buildRequestBody
        { resumeText := " ", resumeFile := none,
          desiredJobDescription := "data analyst", companyJobsUrl := "x" }).resume
        = .resume_text " " :=
  ⟨(validateForm_whitespace_resumeText (fun _ => none) _
      (by decide) (by decide) rfl).1,
   (validateForm_whitespace_resumeText (fun _ => none) _
      (by decide) (by decide) rfl).2.1⟩

/-- C1 (counterexample): a gaps list whose first element is the sentinel
but which has further elements is nevertheless suppressed: the claim says
it should render in full. -/
theorem gapsSection_sentinelHead_counterexample :
    (jobCardView
        ⟨⟨"j1", "Engineer", "Remote", "", "https://a", "greenhouse"⟩, 90,
         ["Strong skills overlap"], [gapsSentinel, "Needs SQL experience"]⟩ 1).gapsSection
      = none
    ∧ ([gapsSentinel, "Needs SQL experience"] ≠ [gapsSentinel])
    ∧ ([gapsSentinel, "Needs SQL experience"] ≠ ([] : List String)) := by
  refine ⟨?_, by decide, by decide⟩
  simp [jobCardView, shouldRenderGaps]

/-- C1 (amended): the gaps section is omitted exactly when the gaps list
is empty or its first element equals the sentinel; whenever it is shown,
it shows the full gaps list in order. -/
theorem gapsSection_omitted_iff (result : MatchResult) (rank : Nat) :
    ((jobCardView result rank).gapsSection = none
      ↔ result.gaps = [] ∨ result.gaps.head? = some gapsSentinel)
    ∧ (∀ l, (jobCardView result rank).gapsSection = some l → l = result.gaps) := by
  cases hg : result.gaps with
  | nil => simp [jobCardView, shouldRenderGaps, hg]
  | cons g gs =>
      by_cases hs : g = gapsSentinel
      · simp [jobCardView, shouldRenderGaps, hg, hs]
      · simp [jobCardView, shouldRenderGaps, hg, hs]

/-- Witness for `gapsSection_omitted_iff`: the exact singleton sentinel
list is suppressed. -/
theorem gapsSection_omitted_iff_witness :
    (jobCardView
        ⟨⟨"j2", "Analyst", "NYC", "", "https://b", "lever"⟩, 70,
         ["Relevant degree"], [gapsSentinel]⟩ 2).gapsSection = none :=
  (gapsSection_omitted_iff _ 2).1.mpr (Or.inr rfl)

/-- C2 (counterexample): a stored slot holding valid JSON without the
expected array structure (the number `42`) is not treated as an empty
ResultSet: the view passes it on and the renderer throws instead of
showing the empty-state notice. -/
theorem resultsPage_invalidStructure_counterexample :
    resultsPageRender (.value (.num 42))
      = .thrown "TypeError: results.slice is not a function"
    ∧ PageRender.thrown "TypeError: results.slice is not a function"
        ≠ PageRender.emptyNotice := by
  refine ⟨rfl, ?_⟩
  intro h
  exact PageRender.noConfusion h

/-- C2 (amended): the results view shows the empty-state notice exactly
when the slot is absent, holds text `JSON.parse` rejects, or holds a
parsed value whose `length` property is strictly-equal to `0`; parsed JSON
is used without structural validation, so other non-array values reach
the renderer (where `slice` throws). -/
theorem resultsPage_emptyNotice_iff (slot : StoredSlot) :
    resultsPageRender slot = .emptyNotice ↔
      (slot = .absent ∨ slot = .malformed
        ∨ ∃ v, slot = .value v ∧ lengthIsZero v = true) := by
  cases slot with
  | absent => simp [resultsPageRender, loadParsedResults, lengthIsZero, jsLengthProp]
  | malformed => simp [resultsPageRender, loadParsedResults, lengthIsZero, jsLengthProp]
  | value v =>
      by_cases h : lengthIsZero v = true
      · simp [resultsPageRender, loadParsedResults, h]
      · cases v <;> simp_all [resultsPageRender, loadParsedResults]

/-- C3 (counterexample): when the non-success response body is
unparseable, `response.json()` rejects and the own message of the caught error
is surfaced — not the generic fallback message the claim requires. -/
theorem submit_unparseableBody_counterexample :
    submitResponseStep initialState
        ⟨false, .unparseable "Unexpected token < in JSON at position 0"⟩
      = .stayed { initialState with
          errors := onlySubmitError "Unexpected token < in JSON at position 0"
          isLoading := false }
    ∧ nonOkError (.unparseable "Unexpected token < in JSON at position 0")
        = "Unexpected token < in JSON at position 0"
    ∧ "Unexpected token < in JSON at position 0" ≠ fallbackMessage := by
  refine ⟨rfl, rfl, by decide⟩

/-- C3 (amended): on every non-success response the form stays, with
`formData` untouched, `isLoading` cleared and `errors.submit` holding
`nonOkError`; that surfaced message is the truthy `detail.message` of the body
string when present, the generic fallback when `detail.message` is absent
or falsy, and the own message of the parse (or property-access) error when the
body is unparseable (or `null`). -/
theorem submit_nonOk_response (st : FormState) (resp : HttpResponse)
    (h : resp.ok = false) :
    submitResponseStep st resp
      = .stayed { st with errors := onlySubmitError (nonOkError resp.body)
                          isLoading := false }
    ∧ (∀ st2, submitResponseStep st resp = .stayed st2 →
        st2.formData = st.formData ∧ st2.isLoading = false)
    ∧ (∀ e, resp.body = .unparseable e → nonOkError resp.body = e)
    ∧ (∀ v detail m, resp.body = .parsed v → jsGetField v "detail" = .ok detail →
        jsOptField detail "message" = .str m → m ≠ "" →
        nonOkError resp.body = m)
    ∧ (∀ v detail, resp.body = .parsed v → jsGetField v "detail" = .ok detail →
        jsTruthy (jsOptField detail "message") = false →
        nonOkError resp.body = fallbackMessage)
    ∧ (∀ v e, resp.body = .parsed v → jsGetField v "detail" = .error e →
        nonOkError resp.body = e) := by
  have hstep : submitResponseStep st resp
      = .stayed { st with errors := onlySubmitError (nonOkError resp.body)
                          isLoading := false } := by
    simp [submitResponseStep, h]
  refine ⟨hstep, ?_, ?_, ?_, ?_, ?_⟩
  · intro st2 h2
    rw [hstep] at h2
    injection h2 with h3
    rw [← h3]
    exact ⟨rfl, rfl⟩
  · intro e he
    simp [nonOkError, he]
  · intro v detail m hv hd hm hne
    simp [nonOkError, hv, hd, hm, jsTruthy, jsToString, hne]
  · intro v detail hv hd hm
    simp [nonOkError, hv, hd, hm]
  · intro v e hv hd
    simp [nonOkError, hv, hd]

/-- Witness for `submit_nonOk_response`: a 429-style body with
`detail.message` set surfaces that message. -/
theorem submit_nonOk_response_witness :
    nonOkError (.parsed (.obj [("detail", .obj [("message", .str "Rate limit exceeded")])]))
      = "Rate limit exceeded" :=
  (submit_nonOk_response initialState
      ⟨false, .parsed (.obj [("detail", .obj [("message", .str "Rate limit exceeded")])])⟩
      rfl).2.2.2.1 _ _ _ rfl rfl rfl (by decide)

/-- Mode invariant of the form: in paste mode no file is stored, in
upload mode the text is empty. -/
theorem reachable_mode_invariant {s : FormState} (h : Reachable s) :
    (s.inputMode = .paste → s.formData.resumeFile = none)
    ∧ (s.inputMode = .upload → s.formData.resumeText = "") := by
  induction h with
  | init => exact ⟨fun _ => rfl, fun _ => rfl⟩
  | switchPaste hr ih => simp [doSwitchPaste]
  | switchUpload hr ih => simp [doSwitchUpload]
  | editResumeText t hr hmode ih =>
      refine ⟨fun _ => ih.1 hmode, fun hu => ?_⟩
      simp [doEditResumeText, hmode] at hu
  | selectFile f hr hmode ih =>
      unfold handleFileChange
      by_cases ht : f.type ∈ validTypes
      · simp [ht, hmode]
      · simp [ht, hmode, ih.2 hmode]
  | editDesiredJob t hr ih => exact ih
  | editCompanyUrl t hr ih => exact ih

/-- C6: in every reachable form state, `resumeText` and `resumeFile` are
never both supplied; and whenever `validateForm` passes, exactly one of
them is supplied. -/
theorem reachable_resume_exclusive {s : FormState} (h : Reachable s) :
    ¬(s.formData.resumeText ≠ "" ∧ s.formData.resumeFile ≠ none)
    ∧ (∀ parseURL, validatePasses parseURL s.formData = true →
        (s.formData.resumeText ≠ "" ∧ s.formData.resumeFile = none)
        ∨ (s.formData.resumeText = "" ∧ s.formData.resumeFile ≠ none)) := by
  have inv := reachable_mode_invariant h
  have hexcl : ¬(s.formData.resumeText ≠ "" ∧ s.formData.resumeFile ≠ none) := by
    rintro ⟨ht, hf⟩
    cases hm : s.inputMode with
    | paste => exact hf (inv.1 hm)
    | upload => exact ht (inv.2 hm)
  refine ⟨hexcl, fun parseURL hp => ?_⟩
  have heq : validateForm parseURL s.formData = noErrors := by
    simpa [validatePasses] using hp
  have hres : (validateForm parseURL s.formData).resume = none := by
    rw [heq]
    rfl
  have hnotboth : ¬(s.formData.resumeText = "" ∧ s.formData.resumeFile = none) := by
    intro hboth
    simp [validateForm, hboth.1, hboth.2] at hres
  by_cases htext : s.formData.resumeText = ""
  · right
    refine ⟨htext, fun hfile => hnotboth ⟨htext, hfile⟩⟩
  · left
    refine ⟨htext, ?_⟩
    by_cases hfile : s.formData.resumeFile = none
    · exact hfile
    · exact absurd ⟨htext, hfile⟩ hexcl

/-- Witness for `reachable_resume_exclusive`: after typing a resume, a
description and a Greenhouse URL from the initial state, validation
passes with exactly the pasted text supplied. -/
theorem reachable_resume_exclusive_witness :
    ((doEditCompanyUrl (doEditDesiredJob (doEditResumeText initialState "My resume")
          "Data analyst roles") "https://boards.greenhouse.io/acme").formData.resumeText ≠ ""
      ∧ (doEditCompanyUrl (doEditDesiredJob (doEditResumeText initialState "My resume")
          "Data analyst roles") "https://boards.greenhouse.io/acme").formData.resumeFile = none)
    ∨ ((doEditCompanyUrl (doEditDesiredJob (doEditResumeText initialState "My resume")
          "Data analyst roles") "https://boards.greenhouse.io/acme").formData.resumeText = ""
      ∧ (doEditCompanyUrl (doEditDesiredJob (doEditResumeText initialState "My resume")
          "Data analyst roles") "https://boards.greenhouse.io/acme").formData.resumeFile ≠ none) :=
  (reachable_resume_exclusive
      (Reachable.editCompanyUrl "https://boards.greenhouse.io/acme"
        (Reachable.editDesiredJob "Data analyst roles"
          (Reachable.editResumeText "My resume" Reachable.init rfl)))).2
    (fun _ => some "boards.greenhouse.io") (by decide)

/-- C9: `ResultsList` renders exactly one card per stored entry, in
stored order with no re-sorting: the entry at index `i` gets rank `i + 1`;
the first three entries sit in the top-recommendations section and are the
exact cards `JobCard` flags top-tier (`isTopThree`), and the remaining
entries sit in the other-matches section with ranks continuing from 4. -/
theorem renderedCards_rank_spec (results : List MatchResult) :
    (renderedCards results).length = results.length
    ∧ ∀ i (h : i < results.length) (h2 : i < (renderedCards results).length),
        (renderedCards results).get ⟨i, h2⟩
          = ⟨results.get ⟨i, h⟩, i + 1, decide (i < 3)⟩
        ∧ isTopThree (i + 1) = decide (i < 3) := by
  constructor
  · simp [renderedCards]
    omega
  · intro i h h2
    constructor
    · rw [List.get_eq_getElem, List.get_eq_getElem]
      rcases Nat.lt_or_ge i 3 with h3 | h3
      · have hlen : i < (((results.take 3).enum.map
            fun p => (⟨p.2, p.1 + 1, true⟩ : RenderedCard))).length := by
          simp
          omega
        simp only [renderedCards]
        rw [List.getElem_append_left hlen, List.getElem_map, List.getElem_enum]
        simp [List.getElem_take, h3]
      · obtain ⟨j, rfl⟩ : ∃ j, i = 3 + j := ⟨i - 3, by omega⟩
        have hlen : (((results.take 3).enum.map
            fun p => (⟨p.2, p.1 + 1, true⟩ : RenderedCard))).length ≤ 3 + j := by
          simp
        simp only [renderedCards]
        rw [List.getElem_append_right hlen, List.getElem_map, List.getElem_enum]
        have hmin : (((results.take 3).enum.map
            fun p => (⟨p.2, p.1 + 1, true⟩ : RenderedCard))).length = 3 := by
          simp
          omega
        simp only [hmin, Nat.add_sub_cancel_left]
        rw [List.getElem_drop]
        simp [RenderedCard.mk.injEq]
        omega
    · by_cases h3 : i < 3 <;> simp [isTopThree, h3] <;> omega

/-- Witness for `renderedCards_rank_spec`: with four stored results, the
fourth card carries rank 4, sits in the other-matches section, and is not
flagged top-tier. -/
theorem renderedCards_rank_spec_witness :
    (renderedCards
        [⟨⟨"a", "", "", "", "", ""⟩, 90, [], []⟩,
         ⟨⟨"b", "", "", "", "", ""⟩, 80, [], []⟩,
         ⟨⟨"c", "", "", "", "", ""⟩, 70, [], []⟩,
         ⟨⟨"d", "", "", "", "", ""⟩, 60, [], []⟩]).get ⟨3, by decide⟩
      = ⟨⟨⟨"d", "", "", "", "", ""⟩, 60, [], []⟩, 4, false⟩ :=
  ((renderedCards_rank_spec
      [⟨⟨"a", "", "", "", "", ""⟩, 90, [], []⟩,
       ⟨⟨"b", "", "", "", "", ""⟩, 80, [], []⟩,
       ⟨⟨"c", "", "", "", "", ""⟩, 70, [], []⟩,
       ⟨⟨"d", "", "", "", "", ""⟩, 60, [], []⟩]).2 3 (by decide) (by decide)).1

end JobFit
